import Mathlib

/-!
Shallow embedding of `src/server.js` (JobAI server): the task catalog, the
`GET /api/jobs` listing, and the `POST /api/submit` handler, together with an
exact model of the IEEE-754 double-precision arithmetic behind the
`Math.floor(job.reward * LAMPORTS_PER_SOL)` lamport conversion.

External effects (the OpenAI call, `JSON.parse` of its reply, the Solana
`PublicKey` constructor, `sendTransaction` and `confirmTransaction`) are
modelled as an oracle `Env` describing what each call would do if reached;
the handler is a pure function of the oracle and the request, and it also
records which external calls were attempted.
-/

/-- A JavaScript runtime value, as far as the handler inspects values:
`JSON.parse` results, object property access and truthiness. -/
inductive JSValue where
  | undefined : JSValue
  | jsNull : JSValue
  | bool : Bool → JSValue
  | num : ℚ → JSValue
  | str : String → JSValue
  | obj : List (String × JSValue) → JSValue
  | arr : List JSValue → JSValue

/-- JavaScript truthiness of a value (`if (x)`, `x ? a : b`).
Rationals model JS numbers; the handler never produces a NaN where
truthiness is tested. -/
def JSValue.truthy : JSValue → Bool
  | .undefined => false
  | .jsNull => false
  | .bool b => b
  | .num q => !(q == 0)
  | .str s => !(s == "")
  | .obj _ => true
  | .arr _ => true

/-- JavaScript property read `v[k]` for the shapes the handler reads
(`result.approved`, `result.reason`): a missing key or a non-object base
yields `undefined`.  Reads on `null`/`undefined` throw instead; the handler
model routes those to the 500 branch before calling this. -/
def JSValue.getField : JSValue → String → JSValue
  | .obj fs, k =>
    match fs.find? (fun p => p.1 == k) with
    | some p => p.2
    | none => .undefined
  | _, _ => .undefined

/-- Keys of a JS object literal, in declaration order. -/
def JSValue.objKeys : JSValue → List String
  | .obj fs => fs.map Prod.fst
  | _ => []

/-! ## `parseInt(jobId)` (line 98), ECMA `parseInt` with radix undefined -/

/-- The StrWhiteSpace characters `parseInt` skips (ASCII portion). -/
def isWS (c : Char) : Bool :=
  c == ' ' || c == '\t' || c == '\n' || c == '\r' || c == '\x0b' || c == '\x0c'

def isDecDigit (c : Char) : Bool := '0' ≤ c && c ≤ '9'

def isHexDigit (c : Char) : Bool :=
  isDecDigit c || ('a' ≤ c && c ≤ 'f') || ('A' ≤ c && c ≤ 'F')

def decVal (c : Char) : ℕ := c.toNat - 48

def hexVal (c : Char) : ℕ :=
  if isDecDigit c then c.toNat - 48
  else if 'a' ≤ c && c ≤ 'f' then c.toNat - 87
  else c.toNat - 55

def digitsToNat (base : ℕ) (f : Char → ℕ) (l : List Char) : ℕ :=
  l.foldl (fun a c => base * a + f c) 0

/-- Longest leading run of decimal digits, as a number; `none` when empty
(`parseInt` yields NaN). -/
def decTake (l : List Char) : Option ℕ :=
  let d := l.takeWhile isDecDigit
  if d.isEmpty then none else some (digitsToNat 10 decVal d)

/-- Longest leading run of hex digits, as a number; `none` when empty. -/
def hexTake (l : List Char) : Option ℕ :=
  let d := l.takeWhile isHexDigit
  if d.isEmpty then none else some (digitsToNat 16 hexVal d)

/-- After sign handling: a `0x`/`0X` head selects radix 16, otherwise the
string is read as decimal. -/
def radixPart (l : List Char) : Option ℕ :=
  match l with
  | c0 :: c1 :: r =>
    if c0 = '0' ∧ (c1 = 'x' ∨ c1 = 'X') then hexTake r
    else decTake (c0 :: c1 :: r)
  | _ => decTake l

/-- Optional leading sign, then the radix-determined digits. -/
def signedPart (l : List Char) : Option ℤ :=
  match l with
  | [] => none
  | c :: r =>
    if c = '+' then (radixPart r).map (fun n => (n : ℤ))
    else if c = '-' then (radixPart r).map (fun n => -(n : ℤ))
    else (radixPart (c :: r)).map (fun n => (n : ℤ))

/-- ECMA `parseInt(s)` with the radix argument undefined; `none` is NaN.
The handler compares the result against small catalog ids, for which the
exact integer value agrees with the JS double value. -/
def parseIntJS (s : String) : Option ℤ := signedPart (s.data.dropWhile isWS)

/-! ## Task catalog (lines 41-69)

The reward literals `0.05`, `0.08`, `0.15` denote the IEEE-754 doubles
nearest to those decimals; the exact rational values of those doubles are
recorded here and proved correct (`uniq_r05_lit` etc.) below. -/

/-- Exact rational value of the double produced by the literal `0.05`. -/
def r05 : ℚ := 7205759403792794 / 2 ^ 57

/-- Exact rational value of the double produced by the literal `0.08`. -/
def r08 : ℚ := 5764607523034235 / 2 ^ 56

/-- Exact rational value of the double produced by the literal `0.15`. -/
def r15 : ℚ := 5404319552844595 / 2 ^ 55

structure Job where
  id : ℤ
  title : String
  description : String
  reward : ℚ
  difficulty : String
  timeEstimate : String
  verificationPrompt : String

def job1 : Job :=
  ⟨1, "Create a meme about AI taking over jobs",
    "Make a funny meme about AI replacing human workers. Must be original, funny, and shareable.",
    r05, "Easy", "10 min",
    "Is this a funny, original meme about AI taking over jobs or replacing workers?"⟩

def job2 : Job :=
  ⟨2, "Write a tweet thread about $JOBAI",
    "Write a 3-5 tweet thread explaining what JobAI is and why it matters. Screenshot your posted tweets.",
    r08, "Easy", "15 min",
    "Does this show a tweet thread (3-5 tweets) about JobAI explaining what it is?"⟩

def job3 : Job :=
  ⟨3, "Design a $JOBAI logo concept",
    "Create a simple logo concept for JobAI. Should be minimal, tech-focused, and work in green/black.",
    r15, "Medium", "30 min",
    "Is this a logo design for JobAI? Is it minimal and tech-focused with green/black colors?"⟩

def jobs : List Job := [job1, job2, job3]

/-- The constant `LAMPORTS_PER_SOL` from `@solana/web3.js`: `1e9`, exact as a double. -/
def LAMPORTS_PER_SOL : ℚ := 1000000000

/-! ## `GET /api/jobs` (lines 77-86) -/

/-- The object built for one task by the listing endpoint's `map`. -/
def publicJob (j : Job) : JSValue :=
  .obj [("id", .num (j.id : ℚ)), ("title", .str j.title),
        ("description", .str j.description), ("reward", .num j.reward),
        ("difficulty", .str j.difficulty), ("timeEstimate", .str j.timeEstimate)]

/-- The array serialized by `GET /api/jobs`. -/
def apiJobs : List JSValue := jobs.map publicJob

/-! ## `POST /api/submit` (lines 89-196) -/

structure ImageFile where
  buffer : String
  mimetype : String

structure SubmitReq where
  jobId : Option String
  wallet : Option String
  proofText : Option String
  image : Option ImageFile

/-- What the judgment backend call would do if reached: the awaited call can
reject, its content can fail `JSON.parse`, or parse to a JS value. -/
inductive AIBehavior where
  | callThrows : AIBehavior
  | badJSON : AIBehavior
  | value : JSValue → AIBehavior

/-- Oracle for the process configuration and the external calls:
`openaiConfigured` is `openai !== null`, `poolConfigured` is
`poolKeypair !== null`, `walletValid` is whether `new PublicKey(wallet)`
succeeds, `sendResult` is the signature `sendTransaction` resolves to
(`none` = it rejects), and `confirmOk` is whether `confirmTransaction`
resolves. -/
structure Env where
  openaiConfigured : Bool
  poolConfigured : Bool
  aiResult : AIBehavior
  walletValid : Bool
  sendResult : Option String
  confirmOk : Bool

/-- HTTP-level result of the handler: an `res.json({success, approved,
reason, reward, txSignature})` body, or an `res.status(code).json({error})`
body. -/
inductive HResp where
  | ok : JSValue → JSValue → ℚ → Option String → HResp
  | err : ℕ → String → HResp

def HResp.statusCode : HResp → ℕ
  | .ok _ _ _ _ => 200
  | .err code _ => code

def HResp.approvedVal : HResp → JSValue
  | .ok a _ _ _ => a
  | .err _ _ => .undefined

def HResp.rewardVal : HResp → ℚ
  | .ok _ _ rew _ => rew
  | .err _ _ => 0

def HResp.txVal : HResp → Option String
  | .ok _ _ _ tx => tx
  | .err _ _ => none

/-- The response plus a record of which external interactions the handler
reached: the catalog lookup, the backend (`openai.chat.completions.create`),
`new PublicKey`, `sendTransaction`, `confirmTransaction`. -/
structure Outcome where
  resp : HResp
  lookupDone : Bool
  aiCalled : Bool
  walletTried : Bool
  sendTried : Bool
  confirmTried : Bool

/-- JS falsiness of the destructured form fields: absent or empty string
(`!jobId || !wallet`, line 94). -/
def isFalsy : Option String → Bool
  | none => true
  | some s => s == ""

/-- Line 98, `jobs.find(j => j.id === parseInt(jobId))`: `NaN` matches
nothing. -/
def findJob (s : String) : Option Job :=
  jobs.find? (fun j => parseIntJS s == some j.id)

/-- Line 188, `reward: approved ? job.reward : 0`. -/
def rewardIf (approved : JSValue) (job : Job) : ℚ :=
  if JSValue.truthy approved then job.reward else 0

/-- Lines 157-190: the payout try/catch and the response assembly.
`txSignature` is assigned from `sendTransaction` before `confirmTransaction`
is awaited, and the catch block leaves it as assigned, so a confirmation
failure does not reset it.  The lamport amount passed to the transfer is the
double computation modelled by `RoundsTo` below; it does not feed back into
the response. -/
def submitPayout (env : Env) (job : Job) (approved reason : JSValue)
    (aiUsed : Bool) : Outcome :=
  if JSValue.truthy approved && env.poolConfigured then
    if env.walletValid then
      match env.sendResult with
      | none =>
        ⟨.ok approved reason (rewardIf approved job) none,
          true, aiUsed, true, true, false⟩
      | some sig =>
        ⟨.ok approved reason (rewardIf approved job) (some sig),
          true, aiUsed, true, true, true⟩
    else
      ⟨.ok approved reason (rewardIf approved job) none,
        true, aiUsed, true, false, false⟩
  else
    ⟨.ok approved reason (rewardIf approved job) none,
      true, aiUsed, false, false, false⟩

/-- Line 145-147 after a successful backend call: `JSON.parse` succeeded and
gave `v`; `result.approved` / `result.reason` on `null` (or `undefined`)
throw a TypeError which the outer catch turns into the 500 response. -/
def submitParsed (env : Env) (job : Job) (v : JSValue) : Outcome :=
  match v with
  | .jsNull => ⟨.err 500 "Failed to process submission", true, true, false, false, false⟩
  | .undefined => ⟨.err 500 "Failed to process submission", true, true, false, false, false⟩
  | v => submitPayout env job (v.getField "approved") (v.getField "reason") true

/-- Lines 108-155: the verification branch.  The backend is consulted iff
`openai && imageFile`; otherwise the demo-mode auto-approval is used.  A
rejected backend call or a `JSON.parse` failure propagates to the outer
catch (500). -/
def submitVerify (env : Env) (req : SubmitReq) (job : Job) : Outcome :=
  if env.openaiConfigured && req.image.isSome then
    match env.aiResult with
    | .callThrows => ⟨.err 500 "Failed to process submission", true, true, false, false, false⟩
    | .badJSON => ⟨.err 500 "Failed to process submission", true, true, false, false, false⟩
    | .value v => submitParsed env job v
  else
    submitPayout env job (.bool true) (.str "Auto-approved (demo mode)") false

/-- Lines 98-101: the catalog lookup and the 404 branch. -/
def submitResolve (env : Env) (req : SubmitReq) : Outcome :=
  match findJob (req.jobId.getD "") with
  | none => ⟨.err 404 "Job not found", true, false, false, false, false⟩
  | some job => submitVerify env req job

/-- The whole `POST /api/submit` handler (lines 89-196). -/
def submit (env : Env) (req : SubmitReq) : Outcome :=
  if isFalsy req.jobId || isFalsy req.wallet then
    ⟨.err 400 "Missing required fields", false, false, false, false, false⟩
  else
    submitResolve env req

/-- Modelled from the spec's words (§4.2): the strict response shape
`{approved: bool, reason: string}` that the spec says the judgment reply is
parsed into. -/
def strictShape (v : JSValue) : Bool :=
  (match v.getField "approved" with
    | .bool _ => true
    | _ => false)
  && (match v.getField "reason" with
    | .str _ => true
    | _ => false)

/-- A syntactically valid JSON object that does not match the strict
verdict shape: it has a `reason` but no `approved` member. -/
def vbad : JSValue := .obj [("reason", .str "done")]

/-- Modelled from the claim's words (C10): the "leading decimal prefix" of
the jobId — the longest leading run of decimal digits, with no whitespace
skipping, sign handling, or hex prefix. -/
def leadingDecimalParse (s : String) : Option ℕ := decTake s.data

/-! ## Exact model of the double-precision lamport conversion (line 164)

`Math.floor(job.reward * LAMPORTS_PER_SOL)` multiplies two doubles (the
product is rounded to the nearest double) and floors the result.  A double
value is a rational `m * 2^e` with `|m| ≤ 2^53` and the binary64 exponent
range; `RoundsTo q x` says `x` is a nearest double to the exact product `q`,
and `UniqueRound` that it is the strictly nearest one (no tie). -/

def IsDouble (x : ℚ) : Prop :=
  ∃ m e : ℤ, |m| ≤ 2 ^ 53 ∧ -1074 ≤ e ∧ e ≤ 971 ∧ x = (m : ℚ) * (2 : ℚ) ^ e

def RoundsTo (q x : ℚ) : Prop :=
  IsDouble x ∧ ∀ y : ℚ, IsDouble y → |q - x| ≤ |q - y|

def UniqueRound (q x : ℚ) : Prop :=
  IsDouble x ∧ ∀ y : ℚ, IsDouble y → y ≠ x → |q - x| < |q - y|

lemma UniqueRound.roundsTo {q x : ℚ} (h : UniqueRound q x) : RoundsTo q x := by
  refine ⟨h.1, fun y hy => ?_⟩
  by_cases hxy : y = x
  · subst hxy; exact le_rfl
  · exact (h.2 y hy hxy).le

lemma UniqueRound.eq_of_roundsTo {q x r : ℚ} (h : UniqueRound q x)
    (h2 : RoundsTo q r) : r = x := by
  by_contra hne
  exact absurd ((h2.2 x h.1).trans_lt (h.2 r h2.1 hne)) (lt_irrefl _)

/-- If `c / 2^s` is a double, lies strictly within half a grid step of `q`,
and `q` is far enough from zero that doubles finer than the `2⁻ˢ` grid are
all below it, then `c / 2^s` is the strictly nearest double to `q`: every
other double either lies on the `2⁻ˢ` grid (a full step away) or has
magnitude at most `2^53 / 2^(s+1)`. -/
lemma uniqueRound_of_grid (q : ℚ) (c : ℤ) (s : ℕ)
    (hx : IsDouble ((c : ℚ) / 2 ^ s))
    (hnear : |q - (c : ℚ) / 2 ^ s| < 1 / 2 ^ (s + 1))
    (hfar : ((2 : ℚ) ^ 53 + 1) / 2 ^ (s + 1) ≤ q) :
    UniqueRound q ((c : ℚ) / 2 ^ s) := by
  refine ⟨hx, ?_⟩
  rintro y ⟨m, e, hm, he1, _, rfl⟩ hne
  have h2s : (0 : ℚ) < 2 ^ s := by positivity
  have hhalf : (1 : ℚ) / 2 ^ (s + 1) + 1 / 2 ^ (s + 1) = 1 / 2 ^ s := by
    rw [pow_succ]; ring
  by_cases hcase : -(s : ℤ) ≤ e
  · have hes : 0 ≤ e + (s : ℤ) := by omega
    set k : ℤ := m * 2 ^ (e + (s : ℤ)).toNat with hk
    have hy : (m : ℚ) * (2 : ℚ) ^ e = (k : ℚ) / 2 ^ s := by
      rw [eq_div_iff (ne_of_gt h2s), hk]
      push_cast
      rw [mul_assoc, ← zpow_natCast (2 : ℚ) s,
        ← zpow_add₀ (by norm_num : (2 : ℚ) ≠ 0),
        ← zpow_natCast (2 : ℚ) (e + (s : ℤ)).toNat, Int.toNat_of_nonneg hes]
    rw [hy] at hne ⊢
    have hkc : k ≠ c := by
      intro h
      exact hne (by rw [h])
    have hones : (1 : ℚ) ≤ |(c : ℚ) - (k : ℚ)| := by
      have h1 : (1 : ℤ) ≤ |c - k| := Int.one_le_abs (sub_ne_zero.mpr (Ne.symm hkc))
      exact_mod_cast h1
    have hdecomp : ((c : ℚ) - (k : ℚ)) / 2 ^ s
        = (q - (k : ℚ) / 2 ^ s) - (q - (c : ℚ) / 2 ^ s) := by
      field_simp
    have htri : |((c : ℚ) - (k : ℚ)) / 2 ^ s|
        ≤ |q - (k : ℚ) / 2 ^ s| + |q - (c : ℚ) / 2 ^ s| := by
      rw [hdecomp]
      exact abs_sub _ _
    have habs : |((c : ℚ) - (k : ℚ)) / 2 ^ s| = |(c : ℚ) - (k : ℚ)| / 2 ^ s := by
      rw [abs_div, abs_of_pos h2s]
    have h1s : (1 : ℚ) / 2 ^ s ≤ |(c : ℚ) - (k : ℚ)| / 2 ^ s := by gcongr
    linarith
  · push_neg at hcase
    have he : e ≤ -(s : ℤ) - 1 := by omega
    have hzpos : (0 : ℚ) < (2 : ℚ) ^ e := by positivity
    have heq : (2 : ℚ) ^ (-(s : ℤ) - 1) = 1 / 2 ^ (s + 1) := by
      rw [show -(s : ℤ) - 1 = -((s : ℤ) + 1) by ring, zpow_neg, one_div]
      congr 1
      rw [show (s : ℤ) + 1 = ((s + 1 : ℕ) : ℤ) by push_cast; ring, zpow_natCast]
    have hzle : (2 : ℚ) ^ e ≤ 1 / 2 ^ (s + 1) := by
      rw [← heq]
      exact zpow_le_zpow_right₀ one_le_two he
    have hm' : |(m : ℚ)| ≤ 2 ^ 53 := by exact_mod_cast hm
    have hsmall : (m : ℚ) * (2 : ℚ) ^ e ≤ (2 : ℚ) ^ 53 / 2 ^ (s + 1) := by
      calc (m : ℚ) * (2 : ℚ) ^ e ≤ |(m : ℚ)| * (2 : ℚ) ^ e :=
            mul_le_mul_of_nonneg_right (le_abs_self _) hzpos.le
        _ ≤ (2 : ℚ) ^ 53 * (1 / 2 ^ (s + 1)) :=
            mul_le_mul hm' hzle hzpos.le (by positivity)
        _ = (2 : ℚ) ^ 53 / 2 ^ (s + 1) := by ring
    have hqfar : (2 : ℚ) ^ 53 / 2 ^ (s + 1) + 1 / 2 ^ (s + 1) ≤ q := by
      calc (2 : ℚ) ^ 53 / 2 ^ (s + 1) + 1 / 2 ^ (s + 1)
          = ((2 : ℚ) ^ 53 + 1) / 2 ^ (s + 1) := by ring
        _ ≤ q := hfar
    calc |q - (c : ℚ) / 2 ^ s| < 1 / 2 ^ (s + 1) := hnear
      _ ≤ q - (m : ℚ) * (2 : ℚ) ^ e := by linarith
      _ ≤ |q - (m : ℚ) * (2 : ℚ) ^ e| := le_abs_self _

/-- The rational `r05` is the double denoted by the source literal `0.05`. -/
lemma uniq_r05_lit : UniqueRound (1 / 20) r05 := by
  have h := uniqueRound_of_grid (1 / 20) 7205759403792794 57
    ⟨7205759403792794, -57, by norm_num, by norm_num, by norm_num, by norm_num⟩
    (by rw [abs_lt]; constructor <;> norm_num)
    (by norm_num)
  have hc : ((7205759403792794 : ℤ) : ℚ) / 2 ^ 57 = r05 := by norm_num [r05]
  rwa [hc] at h

/-- The rational `r08` is the double denoted by the source literal `0.08`. -/
lemma uniq_r08_lit : UniqueRound (2 / 25) r08 := by
  have h := uniqueRound_of_grid (2 / 25) 5764607523034235 56
    ⟨5764607523034235, -56, by norm_num, by norm_num, by norm_num, by norm_num⟩
    (by rw [abs_lt]; constructor <;> norm_num)
    (by norm_num)
  have hc : ((5764607523034235 : ℤ) : ℚ) / 2 ^ 56 = r08 := by norm_num [r08]
  rwa [hc] at h

/-- The rational `r15` is the double denoted by the source literal `0.15`. -/
lemma uniq_r15_lit : UniqueRound (3 / 20) r15 := by
  have h := uniqueRound_of_grid (3 / 20) 5404319552844595 55
    ⟨5404319552844595, -55, by norm_num, by norm_num, by norm_num, by norm_num⟩
    (by rw [abs_lt]; constructor <;> norm_num)
    (by norm_num)
  have hc : ((5404319552844595 : ℤ) : ℚ) / 2 ^ 55 = r15 := by norm_num [r15]
  rwa [hc] at h

/-- The double product `0.05 * 1e9` rounds to exactly `50000000`. -/
lemma uniq_prod05 : UniqueRound (r05 * LAMPORTS_PER_SOL) 50000000 := by
  have h := uniqueRound_of_grid (r05 * LAMPORTS_PER_SOL) 6710886400000000 27
    ⟨50000000, 0, by norm_num, by norm_num, by norm_num, by norm_num⟩
    (by rw [abs_lt]; constructor <;> norm_num [r05, LAMPORTS_PER_SOL])
    (by norm_num [r05, LAMPORTS_PER_SOL])
  have hc : ((6710886400000000 : ℤ) : ℚ) / 2 ^ 27 = 50000000 := by norm_num
  rwa [hc] at h

/-- The double product `0.08 * 1e9` rounds to exactly `80000000`. -/
lemma uniq_prod08 : UniqueRound (r08 * LAMPORTS_PER_SOL) 80000000 := by
  have h := uniqueRound_of_grid (r08 * LAMPORTS_PER_SOL) 5368709120000000 26
    ⟨80000000, 0, by norm_num, by norm_num, by norm_num, by norm_num⟩
    (by rw [abs_lt]; constructor <;> norm_num [r08, LAMPORTS_PER_SOL])
    (by norm_num [r08, LAMPORTS_PER_SOL])
  have hc : ((5368709120000000 : ℤ) : ℚ) / 2 ^ 26 = 80000000 := by norm_num
  rwa [hc] at h

/-- The double product `0.15 * 1e9` rounds to exactly `150000000`. -/
lemma uniq_prod15 : UniqueRound (r15 * LAMPORTS_PER_SOL) 150000000 := by
  have h := uniqueRound_of_grid (r15 * LAMPORTS_PER_SOL) 5033164800000000 25
    ⟨150000000, 0, by norm_num, by norm_num, by norm_num, by norm_num⟩
    (by rw [abs_lt]; constructor <;> norm_num [r15, LAMPORTS_PER_SOL])
    (by norm_num [r15, LAMPORTS_PER_SOL])
  have hc : ((5033164800000000 : ℤ) : ℚ) / 2 ^ 25 = 150000000 := by norm_num
  rwa [hc] at h

/-! ## Structural lemmas about the handler -/

lemma submitPayout_shape (env : Env) (job : Job) (a r : JSValue) (u : Bool) :
    (submitPayout env job a r u).aiCalled = u ∧
    ∃ tx, (submitPayout env job a r u).resp = HResp.ok a r (rewardIf a job) tx := by
  unfold submitPayout
  by_cases h : (JSValue.truthy a && env.poolConfigured) = true
  · rw [if_pos h]
    by_cases hwv : env.walletValid = true
    · rw [if_pos hwv]
      cases hs : env.sendResult with
      | none => exact ⟨rfl, none, rfl⟩
      | some sig => exact ⟨rfl, some sig, rfl⟩
    · rw [if_neg hwv]
      exact ⟨rfl, none, rfl⟩
  · rw [if_neg h]
    exact ⟨rfl, none, rfl⟩

lemma submitPayout_ok_reward (env : Env) (job : Job) (a0 r0 a r : JSValue)
    (u : Bool) (rew : ℚ) (tx : Option String)
    (h : (submitPayout env job a0 r0 u).resp = HResp.ok a r rew tx) :
    a = a0 ∧ rew = rewardIf a0 job := by
  obtain ⟨-, tx', hsh⟩ := submitPayout_shape env job a0 r0 u
  rw [hsh] at h
  injection h with h1 h2 h3 h4
  exact ⟨h1.symm, h3.symm⟩

lemma submitPayout_no_pool (env : Env) (job : Job) (a r : JSValue) (u : Bool)
    (hpool : env.poolConfigured = false) :
    submitPayout env job a r u
      = ⟨HResp.ok a r (rewardIf a job) none, true, u, false, false, false⟩ := by
  unfold submitPayout
  rw [hpool]
  simp

lemma submitPayout_sig (env : Env) (job : Job) (a r : JSValue) (u : Bool) (sig : String)
    (hpool : env.poolConfigured = true) (ht : JSValue.truthy a = true)
    (hwv : env.walletValid = true) (hs : env.sendResult = some sig) :
    submitPayout env job a r u
      = ⟨HResp.ok a r (rewardIf a job) (some sig), true, u, true, true, true⟩ := by
  unfold submitPayout
  rw [hpool, ht, hwv, hs]
  rfl

lemma submitVerify_fallback (env : Env) (req : SubmitReq) (job : Job)
    (hfb : (env.openaiConfigured && req.image.isSome) = false) :
    submitVerify env req job
      = submitPayout env job (.bool true) (.str "Auto-approved (demo mode)") false := by
  unfold submitVerify
  rw [hfb]
  simp

lemma submitVerify_ai (env : Env) (req : SubmitReq) (job : Job) (v : JSValue)
    (hai : (env.openaiConfigured && req.image.isSome) = true)
    (hv : env.aiResult = .value v) (h1 : v ≠ .jsNull) (h2 : v ≠ .undefined) :
    submitVerify env req job
      = submitPayout env job (v.getField "approved") (v.getField "reason") true := by
  unfold submitVerify
  rw [hai, hv]
  simp only [if_true]
  cases v with
  | jsNull => exact absurd rfl h1
  | undefined => exact absurd rfl h2
  | bool b => rfl
  | num q => rfl
  | str s => rfl
  | obj fs => rfl
  | arr l => rfl

lemma submitVerify_ai_err (env : Env) (req : SubmitReq) (job : Job)
    (hai : (env.openaiConfigured && req.image.isSome) = true)
    (hv : env.aiResult = .callThrows ∨ env.aiResult = .badJSON) :
    submitVerify env req job
      = ⟨HResp.err 500 "Failed to process submission", true, true, false, false, false⟩ := by
  unfold submitVerify
  rw [hai]
  rcases hv with hv | hv <;> rw [hv] <;> rfl

lemma submitVerify_cases (env : Env) (req : SubmitReq) (job : Job) :
    submitVerify env req job
        = ⟨HResp.err 500 "Failed to process submission", true, true, false, false, false⟩
    ∨ ∃ a r u, submitVerify env req job = submitPayout env job a r u := by
  by_cases hai : (env.openaiConfigured && req.image.isSome) = true
  · cases hv : env.aiResult with
    | callThrows => exact Or.inl (submitVerify_ai_err env req job hai (Or.inl hv))
    | badJSON => exact Or.inl (submitVerify_ai_err env req job hai (Or.inr hv))
    | value v =>
      cases v with
      | jsNull =>
        left
        unfold submitVerify
        rw [hai, hv]
        rfl
      | undefined =>
        left
        unfold submitVerify
        rw [hai, hv]
        rfl
      | bool b => exact Or.inr ⟨_, _, _, submitVerify_ai env req job _ hai hv (by simp) (by simp)⟩
      | num q => exact Or.inr ⟨_, _, _, submitVerify_ai env req job _ hai hv (by simp) (by simp)⟩
      | str s => exact Or.inr ⟨_, _, _, submitVerify_ai env req job _ hai hv (by simp) (by simp)⟩
      | obj fs => exact Or.inr ⟨_, _, _, submitVerify_ai env req job _ hai hv (by simp) (by simp)⟩
      | arr l => exact Or.inr ⟨_, _, _, submitVerify_ai env req job _ hai hv (by simp) (by simp)⟩
  · exact Or.inr ⟨_, _, _, submitVerify_fallback env req job (by simpa using hai)⟩

lemma submit_eq_verify (env : Env) (req : SubmitReq) (job : Job)
    (hj : isFalsy req.jobId = false) (hw : isFalsy req.wallet = false)
    (hfind : findJob (req.jobId.getD "") = some job) :
    submit env req = submitVerify env req job := by
  unfold submit submitResolve
  rw [hj, hw, hfind]
  rfl

lemma submit_bad_request (env : Env) (req : SubmitReq)
    (h : isFalsy req.jobId = true ∨ isFalsy req.wallet = true) :
    submit env req
      = ⟨HResp.err 400 "Missing required fields", false, false, false, false, false⟩ := by
  unfold submit
  rcases h with h | h <;> rw [h] <;> simp

lemma submit_not_found (env : Env) (req : SubmitReq)
    (hj : isFalsy req.jobId = false) (hw : isFalsy req.wallet = false)
    (hfind : findJob (req.jobId.getD "") = none) :
    submit env req
      = ⟨HResp.err 404 "Job not found", true, false, false, false, false⟩ := by
  unfold submit submitResolve
  rw [hj, hw, hfind]
  rfl

lemma submit_no_pool (env : Env) (req : SubmitReq) (hpool : env.poolConfigured = false) :
    (submit env req).walletTried = false ∧ (submit env req).sendTried = false
    ∧ (submit env req).confirmTried = false
    ∧ ∀ a r rew tx, (submit env req).resp = HResp.ok a r rew tx → tx = none := by
  cases hj : isFalsy req.jobId with
  | true =>
    rw [submit_bad_request env req (Or.inl hj)]
    exact ⟨rfl, rfl, rfl, fun a r rew tx h => absurd h (by simp)⟩
  | false =>
    cases hw : isFalsy req.wallet with
    | true =>
      rw [submit_bad_request env req (Or.inr hw)]
      exact ⟨rfl, rfl, rfl, fun a r rew tx h => absurd h (by simp)⟩
    | false =>
      cases hfind : findJob (req.jobId.getD "") with
      | none =>
        rw [submit_not_found env req hj hw hfind]
        exact ⟨rfl, rfl, rfl, fun a r rew tx h => absurd h (by simp)⟩
      | some job =>
        rw [submit_eq_verify env req job hj hw hfind]
        rcases submitVerify_cases env req job with hcase | ⟨a0, r0, u, hcase⟩
        · rw [hcase]
          exact ⟨rfl, rfl, rfl, fun a r rew tx h => absurd h (by simp)⟩
        · rw [hcase, submitPayout_no_pool env job a0 r0 u hpool]
          refine ⟨rfl, rfl, rfl, fun a r rew tx h => ?_⟩
          injection h with h1 h2 h3 h4
          exact h4.symm

/-! ## Lemmas about `parseInt`-based task resolution -/

lemma decTake_hex_head (c1 : Char) (r : List Char) (hc1 : isDecDigit c1 = false) :
    decTake ('0' :: c1 :: r) = some 0 := by
  unfold decTake
  rw [List.takeWhile_cons_of_pos (by decide),
    List.takeWhile_cons_of_neg (by simp [hc1])]
  rfl

lemma isWS_false_of_digit (c : Char) (h : isDecDigit c = true) : isWS c = false := by
  simp only [isDecDigit, Bool.and_eq_true, decide_eq_true_eq] at h
  simp only [isWS, Bool.or_eq_false_iff, beq_eq_false_iff_ne, ne_eq]
  refine ⟨⟨⟨⟨⟨?_, ?_⟩, ?_⟩, ?_⟩, ?_⟩, ?_⟩ <;> rintro rfl <;> revert h <;> decide

lemma digit_ne_plus (c : Char) (h : isDecDigit c = true) : c ≠ '+' := by
  rintro rfl
  revert h
  decide

lemma digit_ne_minus (c : Char) (h : isDecDigit c = true) : c ≠ '-' := by
  rintro rfl
  revert h
  decide

/-- A jobId that starts with a decimal digit and whose decimal-digit run has
a nonzero value is read by `parseInt` exactly as that run's decimal value
(the hex branch can only fire when the run is just `"0"`). -/
lemma parseIntJS_of_decimal (s : String) (n : ℕ)
    (h : decTake s.data = some n) (hn : 0 < n) :
    parseIntJS s = some (n : ℤ) := by
  obtain ⟨c, t, hst, hc⟩ : ∃ c t, s.data = c :: t ∧ isDecDigit c = true := by
    cases hl : s.data with
    | nil => rw [hl] at h; simp [decTake] at h
    | cons c t =>
      rw [hl] at h
      cases hcb : isDecDigit c with
      | true => exact ⟨c, t, rfl, hcb⟩
      | false => rw [decTake] at h; simp [List.takeWhile_cons, hcb] at h
  rw [parseIntJS, hst]
  rw [List.dropWhile_cons_of_neg (by simp [isWS_false_of_digit c hc])]
  have hrp : radixPart (c :: t) = some n := by
    cases t with
    | nil =>
      rw [hst] at h
      simpa [radixPart] using h
    | cons c1 r =>
      rw [radixPart]
      by_cases hhex : c = '0' ∧ (c1 = 'x' ∨ c1 = 'X')
      · exfalso
        obtain ⟨hc0, hc1⟩ := hhex
        subst hc0
        rw [hst] at h
        rcases hc1 with rfl | rfl <;>
          · rw [decTake_hex_head _ _ (by decide)] at h
            injection h with h
            omega
      · rw [if_neg hhex, ← hst]
        exact h
  simp only [signedPart, if_neg (digit_ne_plus c hc), if_neg (digit_ne_minus c hc), hrp]
  rfl

lemma findJob_of_decimal (s : String) (n : ℕ)
    (h : leadingDecimalParse s = some n) (hmem : (n : ℤ) ∈ jobs.map Job.id) :
    ∃ j, findJob s = some j ∧ j.id = (n : ℤ) := by
  have hmem3 : n = 1 ∨ n = 2 ∨ n = 3 := by
    have hz : (n : ℤ) = 1 ∨ (n : ℤ) = 2 ∨ (n : ℤ) = 3 := by
      simpa [jobs, job1, job2, job3] using hmem
    exact_mod_cast hz
  have hn : 0 < n := by rcases hmem3 with rfl | rfl | rfl <;> norm_num
  have hp : parseIntJS s = some (n : ℤ) := parseIntJS_of_decimal s n h hn
  rcases hmem3 with rfl | rfl | rfl
  · refine ⟨job1, ?_, rfl⟩
    unfold findJob
    simp only [hp]
    rfl
  · refine ⟨job2, ?_, rfl⟩
    unfold findJob
    simp only [hp]
    rfl
  · refine ⟨job3, ?_, rfl⟩
    unfold findJob
    simp only [hp]
    rfl

lemma findJob_none_of_nan (s : String) (h : parseIntJS s = none) :
    findJob s = none := by
  unfold findJob
  apply List.find?_eq_none.mpr
  intro j hj
  simp [h]

/-! ## Claim theorems -/

/-- C1 counterexample: the claim says that when the transfer is submitted
but on-chain confirmation throws, the response reports `txSignature: null`.
On the code it is false: with the pool configured, a (demo-mode) approved
submission for task 1 where `sendTransaction` resolves to `"SIG"` and
`confirmTransaction` rejects still responds with `txSignature = "SIG"`
(the signature is assigned before confirmation is awaited), not null. -/
theorem c1_confirm_failure_counterexample :
    (submit ⟨false, true, AIBehavior.callThrows, true, some "SIG", false⟩
        ⟨some "1", some "W", none, none⟩).resp
      = HResp.ok (.bool true) (.str "Auto-approved (demo mode)") job1.reward (some "SIG")
    ∧ (submit ⟨false, true, AIBehavior.callThrows, true, some "SIG", false⟩
        ⟨some "1", some "W", none, none⟩).confirmTried = true
    ∧ some "SIG" ≠ (none : Option String) :=
  ⟨rfl, rfl, by simp⟩

/-- C1 (amended): for every approved submission with a pool account
configured, if the transfer is submitted (sendTransaction returns a
signature) but on-chain confirmation throws, the response still reports the
approval and the task's nominal reward, and `txSignature` is the submitted
transaction's signature (non-null); confirmation was attempted. -/
theorem c1_amended_confirm_failure_keeps_sig (env : Env) (req : SubmitReq) (job : Job)
    (a r : JSValue) (rew : ℚ) (tx : Option String) (sig : String)
    (hj : isFalsy req.jobId = false) (hw : isFalsy req.wallet = false)
    (hfind : findJob (req.jobId.getD "") = some job)
    (hpool : env.poolConfigured = true) (hwv : env.walletValid = true)
    (hsend : env.sendResult = some sig) (hconf : env.confirmOk = false)
    (hresp : (submit env req).resp = HResp.ok a r rew tx)
    (happ : JSValue.truthy a = true) :
    tx = some sig ∧ rew = job.reward ∧ (submit env req).confirmTried = true := by
  rw [submit_eq_verify env req job hj hw hfind] at hresp ⊢
  rcases submitVerify_cases env req job with hcase | ⟨a0, r0, u, hcase⟩
  · rw [hcase] at hresp
    exact absurd hresp (by simp)
  · rw [hcase] at hresp ⊢
    obtain ⟨ha, hrew⟩ := submitPayout_ok_reward env job a0 r0 a r u rew tx hresp
    have ht0 : JSValue.truthy a0 = true := by rw [← ha]; exact happ
    rw [submitPayout_sig env job a0 r0 u sig hpool ht0 hwv hsend] at hresp ⊢
    injection hresp with h1 h2 h3 h4
    refine ⟨h4.symm, ?_, rfl⟩
    rw [← h3]
    simp [rewardIf, ht0]

/-- C1 witness: the amended theorem applied at the counterexample's input. -/
theorem c1_amended_witness :
    some "SIG" = some "SIG" ∧ job1.reward = job1.reward
      ∧ (submit ⟨false, true, AIBehavior.callThrows, true, some "SIG", false⟩
          ⟨some "1", some "W", none, none⟩).confirmTried = true :=
  c1_amended_confirm_failure_keeps_sig
    ⟨false, true, AIBehavior.callThrows, true, some "SIG", false⟩
    ⟨some "1", some "W", none, none⟩ job1 (.bool true)
    (.str "Auto-approved (demo mode)") job1.reward (some "SIG") "SIG"
    rfl rfl rfl rfl rfl rfl rfl rfl rfl

/-- C2: for every submission that passes intake and resolves a task, if no
judgment backend is configured or no proof image is supplied, the backend is
not called and the submission is approved with the fixed fallback rationale
"Auto-approved (demo mode)", regardless of the proof text or image
content. -/
theorem c2_fallback_auto_approval (env : Env) (req : SubmitReq) (job : Job)
    (hj : isFalsy req.jobId = false) (hw : isFalsy req.wallet = false)
    (hfind : findJob (req.jobId.getD "") = some job)
    (hfb : env.openaiConfigured = false ∨ req.image = none) :
    (submit env req).aiCalled = false ∧
    ∃ tx, (submit env req).resp
      = HResp.ok (.bool true) (.str "Auto-approved (demo mode)") job.reward tx := by
  have hfb' : (env.openaiConfigured && req.image.isSome) = false := by
    rcases hfb with h | h <;> simp [h]
  rw [submit_eq_verify env req job hj hw hfind,
    submitVerify_fallback env req job hfb']
  obtain ⟨hai, tx, hsh⟩ :=
    submitPayout_shape env job (.bool true) (.str "Auto-approved (demo mode)") false
  refine ⟨hai, tx, ?_⟩
  rw [hsh]
  simp [rewardIf, JSValue.truthy]

/-- C2 witness: no backend configured, task 1, text-only proof. -/
theorem c2_witness :
    (submit ⟨false, false, AIBehavior.callThrows, true, none, true⟩
        ⟨some "1", some "W", some "proof", none⟩).aiCalled = false ∧
    ∃ tx, (submit ⟨false, false, AIBehavior.callThrows, true, none, true⟩
        ⟨some "1", some "W", some "proof", none⟩).resp
      = HResp.ok (.bool true) (.str "Auto-approved (demo mode)") job1.reward tx :=
  c2_fallback_auto_approval
    ⟨false, false, AIBehavior.callThrows, true, none, true⟩
    ⟨some "1", some "W", some "proof", none⟩ job1 rfl rfl rfl (Or.inl rfl)

/-- C3: for every submission that reaches response assembly (a 200
response), the reported reward is the resolved task's nominal reward when
the verdict value is truthy and 0 otherwise, whatever the payout oracle
did. -/
theorem c3_reward_reporting (env : Env) (req : SubmitReq) (job : Job)
    (a r : JSValue) (rew : ℚ) (tx : Option String)
    (hj : isFalsy req.jobId = false) (hw : isFalsy req.wallet = false)
    (hfind : findJob (req.jobId.getD "") = some job)
    (hresp : (submit env req).resp = HResp.ok a r rew tx) :
    rew = if JSValue.truthy a then job.reward else 0 := by
  rw [submit_eq_verify env req job hj hw hfind] at hresp
  rcases submitVerify_cases env req job with hcase | ⟨a0, r0, u, hcase⟩
  · rw [hcase] at hresp
    exact absurd hresp (by simp)
  · rw [hcase] at hresp
    obtain ⟨ha, hrew⟩ := submitPayout_ok_reward env job a0 r0 a r u rew tx hresp
    subst ha
    simpa [rewardIf] using hrew

/-- C3 witness: demo-mode approval of task 1 with the payout skipped. -/
theorem c3_witness :
    job1.reward = if JSValue.truthy (.bool true) then job1.reward else 0 :=
  c3_reward_reporting ⟨false, false, AIBehavior.callThrows, true, none, true⟩
    ⟨some "1", some "W", none, none⟩ job1 (.bool true)
    (.str "Auto-approved (demo mode)") job1.reward none rfl rfl rfl rfl

/-- C4: the catalog rewards are exactly the doubles of the literals 0.05,
0.08 and 0.15; for each, the double product `reward * 1e9` rounds to a
unique double whose floor is exactly 50000000 / 80000000 / 150000000 base
units, equal to the exact nominal amount times 1e9 and hence never larger
than it — no off-by-one drift. -/
theorem c4_lamport_conversion_exact :
    jobs.map Job.reward = [r05, r08, r15]
    ∧ UniqueRound (1 / 20) r05 ∧ UniqueRound (2 / 25) r08 ∧ UniqueRound (3 / 20) r15
    ∧ (∀ x : ℚ, RoundsTo (r05 * LAMPORTS_PER_SOL) x →
        ⌊x⌋ = 50000000 ∧ ((⌊x⌋ : ℚ) ≤ (1 / 20) * LAMPORTS_PER_SOL))
    ∧ (∀ x : ℚ, RoundsTo (r08 * LAMPORTS_PER_SOL) x →
        ⌊x⌋ = 80000000 ∧ ((⌊x⌋ : ℚ) ≤ (2 / 25) * LAMPORTS_PER_SOL))
    ∧ (∀ x : ℚ, RoundsTo (r15 * LAMPORTS_PER_SOL) x →
        ⌊x⌋ = 150000000 ∧ ((⌊x⌋ : ℚ) ≤ (3 / 20) * LAMPORTS_PER_SOL)) := by
  refine ⟨rfl, uniq_r05_lit, uniq_r08_lit, uniq_r15_lit, ?_, ?_, ?_⟩
  · intro x hx
    rw [uniq_prod05.eq_of_roundsTo hx]
    norm_num [LAMPORTS_PER_SOL]
  · intro x hx
    rw [uniq_prod08.eq_of_roundsTo hx]
    norm_num [LAMPORTS_PER_SOL]
  · intro x hx
    rw [uniq_prod15.eq_of_roundsTo hx]
    norm_num [LAMPORTS_PER_SOL]

/-- C4 witness: the 0.05 clause applied to the actual rounded product. -/
theorem c4_witness :
    ⌊(50000000 : ℚ)⌋ = 50000000
      ∧ ((⌊(50000000 : ℚ)⌋ : ℚ) ≤ (1 / 20) * LAMPORTS_PER_SOL) :=
  c4_lamport_conversion_exact.2.2.2.2.1 50000000 uniq_prod05.roundsTo

/-- C5 counterexample: the claim says any judgment-response shape mismatch
yields a pipeline-level error, never a silent rejection.  On the code it is
false: a valid JSON object `{"reason": "done"}` (no `approved` member, so
`strictShape` is false) produces a success (200) response with a falsy
`approved` and reward 0 — a silent rejection, not an error. -/
theorem c5_shape_mismatch_counterexample :
    strictShape vbad = false
    ∧ (submit ⟨true, false, AIBehavior.value vbad, true, none, true⟩
        ⟨some "1", some "W", none, some ⟨"img", "image/png"⟩⟩).resp.statusCode = 200
    ∧ JSValue.truthy ((submit ⟨true, false, AIBehavior.value vbad, true, none, true⟩
        ⟨some "1", some "W", none, some ⟨"img", "image/png"⟩⟩).resp.approvedVal) = false
    ∧ (submit ⟨true, false, AIBehavior.value vbad, true, none, true⟩
        ⟨some "1", some "W", none, some ⟨"img", "image/png"⟩⟩).resp.rewardVal = 0 :=
  ⟨rfl, rfl, rfl, rfl⟩

/-- C5 (amended): when the backend is consulted, a rejected call or a reply
that is not valid JSON yields the pipeline-level 500 error; but a reply that
parses to any JS value other than null/undefined is used field-wise without
shape validation — `approved` and `reason` are read as-is (undefined when
missing) and the submission proceeds on the truthiness of `approved`, so a
wrong shape can silently reject (or approve). -/
theorem c5_amended_parse_behavior (env : Env) (req : SubmitReq) (job : Job) (v : JSValue)
    (hj : isFalsy req.jobId = false) (hw : isFalsy req.wallet = false)
    (hfind : findJob (req.jobId.getD "") = some job)
    (hai : env.openaiConfigured = true) (himg : req.image.isSome = true) :
    ((env.aiResult = AIBehavior.callThrows ∨ env.aiResult = AIBehavior.badJSON) →
      (submit env req).resp = HResp.err 500 "Failed to process submission")
    ∧ (env.aiResult = AIBehavior.value v → v ≠ .jsNull → v ≠ .undefined →
        ∃ tx, (submit env req).resp
          = HResp.ok (v.getField "approved") (v.getField "reason")
              (rewardIf (v.getField "approved") job) tx) := by
  have hai' : (env.openaiConfigured && req.image.isSome) = true := by
    simp [hai, himg]
  rw [submit_eq_verify env req job hj hw hfind]
  constructor
  · intro hv
    rw [submitVerify_ai_err env req job hai' hv]
  · intro hv h1 h2
    rw [submitVerify_ai env req job v hai' hv h1 h2]
    obtain ⟨-, tx, hsh⟩ :=
      submitPayout_shape env job (v.getField "approved") (v.getField "reason") true
    exact ⟨tx, hsh⟩

/-- C5 witness: the amended theorem applied to the mismatched-shape reply. -/
theorem c5_amended_witness :
    ∃ tx, (submit ⟨true, false, AIBehavior.value vbad, true, none, true⟩
        ⟨some "1", some "W", none, some ⟨"img", "image/png"⟩⟩).resp
      = HResp.ok (vbad.getField "approved") (vbad.getField "reason")
          (rewardIf (vbad.getField "approved") job1) tx :=
  (c5_amended_parse_behavior ⟨true, false, AIBehavior.value vbad, true, none, true⟩
      ⟨some "1", some "W", none, some ⟨"img", "image/png"⟩⟩ job1 vbad
      rfl rfl rfl rfl rfl).2 rfl (by simp [vbad]) (by simp [vbad])

/-- C6: a submission whose jobId or wallet field is missing or empty fails
with 400 "Missing required fields" before the task lookup, the judgment
call, or any payout step is attempted. -/
theorem c6_missing_fields_bad_request (env : Env) (req : SubmitReq)
    (h : isFalsy req.jobId = true ∨ isFalsy req.wallet = true) :
    (submit env req).resp = HResp.err 400 "Missing required fields"
    ∧ (submit env req).lookupDone = false ∧ (submit env req).aiCalled = false
    ∧ (submit env req).walletTried = false ∧ (submit env req).sendTried = false
    ∧ (submit env req).confirmTried = false := by
  rw [submit_bad_request env req h]
  exact ⟨rfl, rfl, rfl, rfl, rfl, rfl⟩

/-- C6 witness: wallet present but jobId missing. -/
theorem c6_witness :
    (submit ⟨true, true, AIBehavior.callThrows, true, some "S", true⟩
        ⟨none, some "W", none, none⟩).resp = HResp.err 400 "Missing required fields"
    ∧ (submit ⟨true, true, AIBehavior.callThrows, true, some "S", true⟩
        ⟨none, some "W", none, none⟩).lookupDone = false
    ∧ (submit ⟨true, true, AIBehavior.callThrows, true, some "S", true⟩
        ⟨none, some "W", none, none⟩).aiCalled = false
    ∧ (submit ⟨true, true, AIBehavior.callThrows, true, some "S", true⟩
        ⟨none, some "W", none, none⟩).walletTried = false
    ∧ (submit ⟨true, true, AIBehavior.callThrows, true, some "S", true⟩
        ⟨none, some "W", none, none⟩).sendTried = false
    ∧ (submit ⟨true, true, AIBehavior.callThrows, true, some "S", true⟩
        ⟨none, some "W", none, none⟩).confirmTried = false :=
  c6_missing_fields_bad_request ⟨true, true, AIBehavior.callThrows, true, some "S", true⟩
    ⟨none, some "W", none, none⟩ (Or.inl rfl)

/-- C7: a submission whose task identifier resolves to no catalog task fails
with 404 "Job not found", and neither the judgment backend nor any payout
step is invoked. -/
theorem c7_unknown_task_not_found (env : Env) (req : SubmitReq)
    (hj : isFalsy req.jobId = false) (hw : isFalsy req.wallet = false)
    (hfind : findJob (req.jobId.getD "") = none) :
    (submit env req).resp = HResp.err 404 "Job not found"
    ∧ (submit env req).aiCalled = false ∧ (submit env req).walletTried = false
    ∧ (submit env req).sendTried = false ∧ (submit env req).confirmTried = false := by
  rw [submit_not_found env req hj hw hfind]
  exact ⟨rfl, rfl, rfl, rfl, rfl⟩

/-- C7 witness: the spec's scenario, task id 99. -/
theorem c7_witness :
    (submit ⟨true, true, AIBehavior.callThrows, true, some "S", true⟩
        ⟨some "99", some "W", none, none⟩).resp = HResp.err 404 "Job not found"
    ∧ (submit ⟨true, true, AIBehavior.callThrows, true, some "S", true⟩
        ⟨some "99", some "W", none, none⟩).aiCalled = false
    ∧ (submit ⟨true, true, AIBehavior.callThrows, true, some "S", true⟩
        ⟨some "99", some "W", none, none⟩).walletTried = false
    ∧ (submit ⟨true, true, AIBehavior.callThrows, true, some "S", true⟩
        ⟨some "99", some "W", none, none⟩).sendTried = false
    ∧ (submit ⟨true, true, AIBehavior.callThrows, true, some "S", true⟩
        ⟨some "99", some "W", none, none⟩).confirmTried = false :=
  c7_unknown_task_not_found ⟨true, true, AIBehavior.callThrows, true, some "S", true⟩
    ⟨some "99", some "W", none, none⟩ rfl rfl rfl

/-- C8: with no pool account configured, every approved (truthy-verdict)
success response has `txSignature = null`, and no chain call — address
parse, transfer submission, or confirmation — is attempted. -/
theorem c8_no_pool_no_chain_call (env : Env) (req : SubmitReq)
    (a r : JSValue) (rew : ℚ) (tx : Option String)
    (hpool : env.poolConfigured = false)
    (hresp : (submit env req).resp = HResp.ok a r rew tx)
    (happ : JSValue.truthy a = true) :
    tx = none ∧ (submit env req).walletTried = false
    ∧ (submit env req).sendTried = false ∧ (submit env req).confirmTried = false := by
  obtain ⟨h1, h2, h3, h4⟩ := submit_no_pool env req hpool
  exact ⟨h4 a r rew tx hresp, h1, h2, h3⟩

/-- C8 witness: approved demo-mode submission with the pool absent. -/
theorem c8_witness :
    (none : Option String) = none
    ∧ (submit ⟨false, false, AIBehavior.callThrows, true, none, true⟩
        ⟨some "1", some "W", none, none⟩).walletTried = false
    ∧ (submit ⟨false, false, AIBehavior.callThrows, true, none, true⟩
        ⟨some "1", some "W", none, none⟩).sendTried = false
    ∧ (submit ⟨false, false, AIBehavior.callThrows, true, none, true⟩
        ⟨some "1", some "W", none, none⟩).confirmTried = false :=
  c8_no_pool_no_chain_call ⟨false, false, AIBehavior.callThrows, true, none, true⟩
    ⟨some "1", some "W", none, none⟩ (.bool true)
    (.str "Auto-approved (demo mode)") job1.reward none rfl rfl rfl

/-- C9: the listing endpoint exposes, for each catalog task, exactly the
keys id, title, description, reward, difficulty, timeEstimate — the
judgment question (`verificationPrompt`) is absent from every object. -/
theorem c9_listing_omits_question :
    apiJobs = jobs.map publicJob
    ∧ apiJobs.map JSValue.objKeys
      = [["id", "title", "description", "reward", "difficulty", "timeEstimate"],
         ["id", "title", "description", "reward", "difficulty", "timeEstimate"],
         ["id", "title", "description", "reward", "difficulty", "timeEstimate"]]
    ∧ apiJobs.all (fun v => !((JSValue.objKeys v).contains "verificationPrompt")) = true :=
  ⟨rfl, rfl, rfl⟩

/-- C10 counterexample: the claim says a jobId with no parsable (leading
decimal) integer prefix always fails NotFound.  On the code it is false:
`" 1"` has no leading decimal prefix, yet `parseInt` skips the whitespace
and the submission resolves task 1 and gets a 200 response. -/
theorem c10_no_decimal_head_counterexample :
    leadingDecimalParse " 1" = none
    ∧ findJob " 1" = some job1
    ∧ (submit ⟨false, false, AIBehavior.callThrows, true, none, true⟩
        ⟨some " 1", some "W", none, none⟩).resp.statusCode = 200 :=
  ⟨rfl, rfl, rfl⟩

/-- C10 (amended): task resolution compares ids against `parseInt(jobId)`.
Any jobId whose leading decimal prefix parses to an existing task id (e.g.
"1abc", "01") resolves to that task; a jobId on which `parseInt` finds no
digits fails NotFound; but a jobId with no leading decimal digit may still
resolve, because `parseInt` first skips whitespace and accepts an optional
sign or 0x hex prefix (e.g. " 1" resolves to task 1). -/
theorem c10_amended_resolution (env : Env) (req : SubmitReq) :
    (∀ s n, leadingDecimalParse s = some n → (n : ℤ) ∈ jobs.map Job.id →
      ∃ j, findJob s = some j ∧ j.id = (n : ℤ))
    ∧ (∀ s, req.jobId = some s → isFalsy req.jobId = false → isFalsy req.wallet = false →
        parseIntJS s = none →
        (submit env req).resp = HResp.err 404 "Job not found") := by
  constructor
  · exact findJob_of_decimal
  · intro s hs hj hw hnan
    have hfind : findJob (req.jobId.getD "") = none := by
      rw [hs]
      exact findJob_none_of_nan s hnan
    rw [submit_not_found env req hj hw hfind]

/-- C10 witness: "1abc" resolves to task 1 via its decimal prefix, and a
digit-free jobId fails NotFound. -/
theorem c10_amended_witness :
    (∃ j, findJob "1abc" = some j ∧ j.id = ((1 : ℕ) : ℤ))
    ∧ (submit ⟨false, false, AIBehavior.callThrows, true, none, true⟩
        ⟨some "abc", some "W", none, none⟩).resp = HResp.err 404 "Job not found" :=
  ⟨(c10_amended_resolution ⟨false, false, AIBehavior.callThrows, true, none, true⟩
      ⟨some "abc", some "W", none, none⟩).1 "1abc" 1 rfl (by decide),
    (c10_amended_resolution ⟨false, false, AIBehavior.callThrows, true, none, true⟩
      ⟨some "abc", some "W", none, none⟩).2 "abc" rfl rfl rfl rfl⟩
